import Mathlib

/-!
Shallow embedding of the genre-extraction core of `src/lastfm.py`
(class `GenreExtractor`), together with the fuzzy string matching it
delegates to (`fuzzywuzzy.fuzz.ratio` over `difflib.SequenceMatcher`,
and `fuzzywuzzy.process.extractOne`).

Python strings are modelled as Lean `String` (one `Char` per code point).
Python character classes are approximated on the repertoire relevant to the
reference data: the regex class of word characters (alphanumeric or
underscore, Unicode-aware in Python) is modelled as ASCII alphanumeric,
underscore, or one of the accented letters appearing in the genre taxonomy;
whitespace is modelled by `Char.isWhitespace`; `str.lower` by
`Char.toLower` (ASCII).
-/

set_option maxRecDepth 1000000

set_option maxHeartbeats 2000000

namespace MusicMatch

/-- Python regex word character (the class matched by a backslash-w):
alphanumeric or underscore.  ASCII alphanumeric plus the accented letters
used by the taxonomy entries of `_load_genre_taxonomy`. -/
def pyIsWordChar (c : Char) : Bool :=
  c.isAlphanum || c = '_' || c = 'ó' || c = 'ñ' || c = 'á'

/-- Python `str.lower`. -/
def pyLower (s : String) : String :=
  String.mk (s.toList.map Char.toLower)

/-- Python `str.strip`: drop leading and trailing whitespace. -/
def pyStrip (s : String) : String :=
  String.mk
    (((s.toList.dropWhile Char.isWhitespace).reverse.dropWhile
      Char.isWhitespace).reverse)

/-- Substring containment on character lists: `w` occurs contiguously in `t`.
Models the Python expression `w in t` on strings. -/
def subOccurs (w : List Char) : List Char → Bool
  | [] => w.isEmpty
  | c :: t => w.isPrefixOf (c :: t) || subOccurs w t

/-- Python `w in t` for strings. -/
def strContains (t w : String) : Bool :=
  subOccurs w.toList t.toList

/-- Helper for `collapseWs`: the flag records whether the previous
character was whitespace (in which case further whitespace belongs to the
same run and is dropped). -/
def collapseWsAux : Bool → List Char → List Char
  | _, [] => []
  | prevWs, c :: rest =>
    if c.isWhitespace then
      if prevWs then collapseWsAux true rest
      else ' ' :: collapseWsAux true rest
    else c :: collapseWsAux false rest

/-- The regex substitution replacing every maximal run of whitespace by a
single space character: models `re.sub` of one-or-more whitespace with a
single space (line 66 of `lastfm.py`). -/
def collapseWs (l : List Char) : List Char :=
  collapseWsAux false l

/-- The per-tag cleaning performed inside `_clean_tags` (lines 64-66):
lower-case, strip, remove every character that is not a word character,
whitespace, or hyphen, then collapse whitespace runs to single spaces. -/
def cleanOne (tag : String) : String :=
  let t1 := pyStrip (pyLower tag)
  let t2 := t1.toList.filter (fun c => pyIsWordChar c || c.isWhitespace || c = '-')
  String.mk (collapseWs t2)

/-- `GenreExtractionConfig` (lines 9-16).  The two float fields are modelled
as rationals; they are carried but never consulted by the pipeline. -/
structure GenreExtractionConfig where
  fuzzy_threshold : Nat
  min_tag_length : Nat
  max_tag_length : Nat
  keyword_threshold : Rat
  context_weight : Rat

/-- The default configuration `GenreExtractionConfig()`. -/
def defaultConfig : GenreExtractionConfig :=
  ⟨80, 2, 50, 3/5, 3/10⟩

/-- `_load_genre_taxonomy` (lines 210-335), in source order.  A Python dict
with unique keys, modelled as an association list. -/
def knownGenres : List (String × String) := [
  ("rock", "rock"),
  ("pop", "pop"),
  ("hip-hop", "hip-hop"),
  ("hiphop", "hip-hop"),
  ("hip hop", "hip-hop"),
  ("electronic", "electronic"),
  ("jazz", "jazz"),
  ("blues", "blues"),
  ("country", "country"),
  ("classical", "classical"),
  ("reggae", "reggae"),
  ("metal", "metal"),
  ("punk", "punk"),
  ("folk", "folk"),
  ("indie", "indie"),
  ("alternative", "alternative"),
  ("rnb", "rnb"),
  ("soul", "soul"),
  ("funk", "funk"),
  ("house", "house"),
  ("techno", "techno"),
  ("dubstep", "dubstep"),
  ("ambient", "ambient"),
  ("experimental", "experimental"),
  ("trance", "trance"),
  ("drum and bass", "drum and bass"),
  ("dnb", "drum and bass"),
  ("breakbeat", "breakbeat"),
  ("garage", "garage"),
  ("trap", "trap"),
  ("drill", "drill"),
  ("grime", "grime"),
  ("synthwave", "synthwave"),
  ("vaporwave", "vaporwave"),
  ("chillwave", "chillwave"),
  ("darkwave", "darkwave"),
  ("new wave", "new wave"),
  ("post-punk", "post-punk"),
  ("post-rock", "post-rock"),
  ("shoegaze", "shoegaze"),
  ("dream pop", "dream pop"),
  ("britpop", "britpop"),
  ("grunge", "grunge"),
  ("emo", "emo"),
  ("screamo", "screamo"),
  ("hardcore", "hardcore"),
  ("metalcore", "metalcore"),
  ("deathcore", "deathcore"),
  ("black metal", "black metal"),
  ("death metal", "death metal"),
  ("thrash metal", "thrash metal"),
  ("heavy metal", "heavy metal"),
  ("power metal", "power metal"),
  ("progressive metal", "progressive metal"),
  ("doom metal", "doom metal"),
  ("sludge metal", "sludge metal"),
  ("stoner rock", "stoner rock"),
  ("psychedelic rock", "psychedelic rock"),
  ("garage rock", "garage rock"),
  ("surf rock", "surf rock"),
  ("rockabilly", "rockabilly"),
  ("skiffle", "skiffle"),
  ("bebop", "bebop"),
  ("swing", "swing"),
  ("big band", "big band"),
  ("smooth jazz", "smooth jazz"),
  ("fusion", "fusion"),
  ("free jazz", "free jazz"),
  ("cool jazz", "cool jazz"),
  ("hard bop", "hard bop"),
  ("delta blues", "delta blues"),
  ("chicago blues", "chicago blues"),
  ("electric blues", "electric blues"),
  ("rhythm and blues", "rhythm and blues"),
  ("motown", "motown"),
  ("neo-soul", "neo-soul"),
  ("northern soul", "northern soul"),
  ("southern soul", "southern soul"),
  ("gospel", "gospel"),
  ("spiritual", "spiritual"),
  ("bluegrass", "bluegrass"),
  ("americana", "americana"),
  ("alt-country", "alt-country"),
  ("outlaw country", "outlaw country"),
  ("honky-tonk", "honky-tonk"),
  ("western swing", "western swing"),
  ("dancehall", "dancehall"),
  ("roots reggae", "roots reggae"),
  ("dub reggae", "dub reggae"),
  ("ska punk", "ska punk"),
  ("two-tone", "two-tone"),
  ("calypso", "calypso"),
  ("soca", "soca"),
  ("salsa", "salsa"),
  ("merengue", "merengue"),
  ("bachata", "bachata"),
  ("cumbia", "cumbia"),
  ("reggaeton", "reggaeton"),
  ("latin pop", "latin pop"),
  ("bossa nova", "bossa nova"),
  ("samba", "samba"),
  ("forró", "forró"),
  ("mpb", "mpb"),
  ("tropicália", "tropicália"),
  ("fado", "fado"),
  ("flamenco", "flamenco"),
  ("tango", "tango"),
  ("mariachi", "mariachi"),
  ("ranchera", "ranchera"),
  ("norteño", "norteño"),
  ("conjunto", "conjunto"),
  ("tejano", "tejano"),
  ("zydeco", "zydeco"),
  ("cajun", "cajun"),
  ("celtic", "celtic"),
  ("irish traditional", "irish traditional"),
  ("scottish traditional", "scottish traditional"),
  ("klezmer", "klezmer"),
  ("polka", "polka"),
  ("waltz", "waltz"),
  ("mazurka", "mazurka"),
  ("tarantella", "tarantella"),
  ("fandango", "fandango")]

/-- Python dict lookup `self.known_genres[tag]` / membership test
`tag in self.known_genres`, via the association list. -/
def taxLookup (tag : String) : Option String :=
  (knownGenres.find? (fun p => p.1 == tag)).map (fun p => p.2)

/-- One entry of `_load_non_genre_patterns`.  The source stores regular
expressions used with prefix-anchored, case-insensitive matching
(`re.match` with `re.IGNORECASE`); each of the 58 source patterns has one
of three shapes, modelled exactly:
* `twoDigitDecade` encodes the anchored regex of two digits followed by
  the letter s, covering the whole string;
* `yearMaybeS` encodes the anchored regex of four digits followed by an
  optional letter s, covering the whole string;
* `containsWord w` encodes dot-star, the literal word `w`, dot-star,
  which under `re.match` holds exactly when `w` occurs as a substring.
  The source pattern with the literal `favorites` followed by an optional
  s is equivalent to containment of `favorite`. -/
inductive NonGenrePat where
  | twoDigitDecade : NonGenrePat
  | yearMaybeS : NonGenrePat
  | containsWord : String → NonGenrePat
deriving DecidableEq

/-- Case-insensitive letter s (the patterns are matched with
`re.IGNORECASE`). -/
def isLetterS (c : Char) : Bool :=
  c = 's' || c = 'S'

/-- `re.match(pattern, tag, re.IGNORECASE)` for the three pattern shapes. -/
def patMatches (p : NonGenrePat) (tag : String) : Bool :=
  match p with
  | .twoDigitDecade =>
    match tag.toList with
    | [a, b, c] => a.isDigit && b.isDigit && isLetterS c
    | _ => false
  | .yearMaybeS =>
    match tag.toList with
    | [a, b, c, d] => a.isDigit && b.isDigit && c.isDigit && d.isDigit
    | [a, b, c, d, e] => a.isDigit && b.isDigit && c.isDigit && d.isDigit && isLetterS e
    | _ => false
  | .containsWord w => strContains (pyLower tag) w

/-- `_load_non_genre_patterns` (lines 339-397), in source order. -/
def nonGenrePatterns : List NonGenrePat := [
  .twoDigitDecade,
  .yearMaybeS,
  .containsWord "seen live",
  .containsWord "favorite",
  .containsWord "recommended",
  .containsWord "love",
  .containsWord "awesome",
  .containsWord "best",
  .containsWord "top",
  .containsWord "favorite",
  .containsWord "male",
  .containsWord "female",
  .containsWord "british",
  .containsWord "american",
  .containsWord "canadian",
  .containsWord "australian",
  .containsWord "german",
  .containsWord "french",
  .containsWord "italian",
  .containsWord "chill",
  .containsWord "relax",
  .containsWord "emotional",
  .containsWord "romantic",
  .containsWord "sad",
  .containsWord "happy",
  .containsWord "energetic",
  .containsWord "melancholic",
  .containsWord "upbeat",
  .containsWord "mellow",
  .containsWord "nostalgic",
  .containsWord "party",
  .containsWord "dance",
  .containsWord "summer",
  .containsWord "winter",
  .containsWord "night",
  .containsWord "morning",
  .containsWord "driving",
  .containsWord "workout",
  .containsWord "study",
  .containsWord "background",
  .containsWord "instrumental",
  .containsWord "acoustic",
  .containsWord "live",
  .containsWord "cover",
  .containsWord "remix",
  .containsWord "radio",
  .containsWord "edit",
  .containsWord "version",
  .containsWord "mix",
  .containsWord "single",
  .containsWord "album",
  .containsWord "ep",
  .containsWord "compilation",
  .containsWord "soundtrack",
  .containsWord "theme",
  .containsWord "christmas",
  .containsWord "holiday"]

/-- The inner pattern loop of `_filter_non_genres` (lines 82-85): the tag
is flagged as a non-genre as soon as one pattern matches. -/
def tagIsNonGenre (ps : List NonGenrePat) (tag : String) : Bool :=
  ps.any (fun p => patMatches p tag)

/-- `_load_genre_keywords` (lines 401-416), in source order. -/
def genreKeywords : List String := [
  "core", "wave", "step", "hop", "house", "techno", "trance",
  "metal", "rock", "punk", "folk", "jazz", "blues", "soul",
  "funk", "disco", "reggae", "ska", "dub", "ambient", "drone",
  "noise", "industrial", "gothic", "dark", "black", "death",
  "thrash", "speed", "power", "prog", "post", "neo", "new",
  "old", "classic", "modern", "contemporary", "traditional",
  "experimental", "alternative", "indie", "underground",
  "mainstream", "commercial", "lo-fi", "hi-fi", "electronica",
  "electronic", "digital", "analog", "acoustic", "electric",
  "bass", "drum", "beat", "rhythm", "tempo", "bpm",
  "major", "minor", "key", "scale", "mode", "harmony",
  "melody", "vocal", "instrumental", "orchestral", "symphonic",
  "chamber", "ensemble", "band", "group", "solo", "duo",
  "trio", "quartet", "quintet", "sextet", "septet", "octet"]

/-- `_load_non_genre_keywords` (lines 420-444), in source order. -/
def nonGenreKeywords : List String := [
  "seen", "live", "concert", "favorite", "best", "top", "love",
  "awesome", "great", "good", "bad", "terrible", "amazing",
  "perfect", "beautiful", "ugly", "boring", "exciting",
  "recommended", "suggestion", "playlist", "album", "single",
  "ep", "compilation", "soundtrack", "theme", "cover", "remix",
  "edit", "version", "mix", "radio", "clean", "explicit",
  "censored", "uncensored", "remastered", "deluxe", "special",
  "limited", "edition", "bonus", "track", "disc", "cd", "vinyl",
  "digital", "download", "stream", "youtube", "spotify",
  "apple", "amazon", "google", "bandcamp", "soundcloud",
  "male", "female", "vocalist", "singer", "musician", "artist",
  "band", "group", "duo", "trio", "quartet", "solo",
  "british", "american", "canadian", "australian", "german",
  "french", "italian", "spanish", "japanese", "korean",
  "chinese", "russian", "brazilian", "mexican", "indian",
  "summer", "winter", "spring", "autumn", "fall", "christmas",
  "holiday", "birthday", "party", "wedding", "funeral",
  "morning", "afternoon", "evening", "night", "midnight",
  "driving", "walking", "running", "workout", "exercise",
  "study", "work", "sleep", "relax", "chill", "background",
  "emotional", "sad", "happy", "angry", "depressed", "excited",
  "romantic", "nostalgic", "melancholic", "upbeat", "mellow",
  "energetic", "calm", "peaceful", "aggressive", "violent"]

/-- `_load_genre_families` (lines 448-459), in source order. -/
def genreFamilies : List (String × List String) := [
  ("rock", ["rock", "alternative", "indie", "grunge", "punk", "metal"]),
  ("electronic", ["electronic", "techno", "house", "trance", "dubstep", "ambient"]),
  ("hip_hop", ["hip-hop", "rap", "trap", "drill", "boom", "bap"]),
  ("jazz", ["jazz", "bebop", "swing", "fusion", "smooth", "free"]),
  ("blues", ["blues", "rhythm", "delta", "chicago", "electric"]),
  ("country", ["country", "folk", "bluegrass", "americana", "western"]),
  ("classical", ["classical", "baroque", "romantic", "modern", "opera"]),
  ("reggae", ["reggae", "ska", "dub", "dancehall", "roots"]),
  ("pop", ["pop", "dance", "disco", "synthpop", "electropop"]),
  ("r&b", ["rnb", "soul", "funk", "motown", "neo-soul"])]

/-- The synonym table of `_normalize_genre_name` (lines 194-202), in
source order. -/
def normalizations : List (String × String) := [
  ("hiphop", "hip-hop"),
  ("hip hop", "hip-hop"),
  ("r&b", "rnb"),
  ("r and b", "rnb"),
  ("electronic music", "electronic"),
  ("alt rock", "alternative rock"),
  ("alternative", "alternative rock")]

/-! ## Fuzzy string matching

`_fuzzy_match_genre` delegates to `fuzzywuzzy.process.extractOne` with
`scorer=fuzz.ratio`.  With the pure-Python backend, `fuzz.ratio` runs
`difflib.SequenceMatcher(None, s1, s2)` and returns the ratio scaled to
0-100 and rounded to the nearest integer (Python `round`, ties to even).
`extractOne` applies `fuzzywuzzy.utils.full_process` to the query and to
every choice, scores each processed choice against the processed query,
and returns the first choice attaining the maximal score.

All strings involved are far below the 200-element bound at which
`SequenceMatcher`'s autojunk heuristic activates, and no junk predicate is
supplied, so `find_longest_match` is exactly its inner dynamic-programming
loop (the junk/popular extension loops are no-ops). -/

/-- `fuzzywuzzy.utils.full_process`: replace every non-word character by a
space, lower-case, and strip leading/trailing whitespace. -/
def pyFullProcess (s : String) : String :=
  pyStrip (pyLower (String.mk (s.toList.map (fun c => if pyIsWordChar c then c else ' '))))

/-- Ascending list of the positions of `c` in `b`: the entry `b2j[c]` of
`SequenceMatcher.__chain_b` (restricted to the one element consulted). -/
def occPositions (c : Char) (b : List Char) : List Nat :=
  (b.enum.filter (fun p => p.2 == c)).map (fun p => p.1)

/-- Lookup in the `j2len` association list of `find_longest_match`,
defaulting to 0 (Python `j2len.get(j-1, 0)`). -/
def j2lenGet (l : List (Nat × Nat)) (j : Nat) : Nat :=
  ((l.find? (fun p => p.1 == j)).map (fun p => p.2)).getD 0

/-- The inner loop of `find_longest_match` for one index `i` of `a`:
folds over the positions of `a[i]` in `b` in ascending order, building the
new `j2len` table and updating the best block `(besti, bestj, bestsize)`
exactly when a strictly longer run is found. -/
def flmRow (j2len : List (Nat × Nat)) (i : Nat) (js : List Nat)
    (best : Nat × Nat × Nat) : List (Nat × Nat) × (Nat × Nat × Nat) :=
  js.foldl
    (fun acc j =>
      let k := (if j = 0 then 0 else j2lenGet j2len (j - 1)) + 1
      let b := acc.2
      ((j, k) :: acc.1, if k > b.2.2 then (i + 1 - k, j + 1 - k, k) else b))
    ([], best)

/-- `difflib.SequenceMatcher.find_longest_match` over whole sequences
(no junk, no popular elements): returns `(i, j, size)` of the longest
matching block of `a` and `b`, earliest in `a` then earliest in `b`. -/
def findLongestMatch (a b : List Char) : Nat × Nat × Nat :=
  (a.enum.foldl
    (fun acc ic =>
      flmRow acc.1 ic.1 (occPositions ic.2 b) acc.2)
    ([], (0, 0, 0))).2

/-- Sum of the sizes of the matching blocks of
`SequenceMatcher.get_matching_blocks`, expressed by the recursive
decomposition around the longest matching block.  The fuel argument only
bounds the recursion depth; `matchTotal` supplies enough fuel for the
recursion (which consumes at least one element of each list per level)
to run to completion. -/
def matchTotalFuel : Nat → List Char → List Char → Nat
  | 0, _, _ => 0
  | fuel + 1, a, b =>
    let m := findLongestMatch a b
    let i := m.1
    let j := m.2.1
    let k := m.2.2
    if k = 0 then 0
    else
      matchTotalFuel fuel (a.take i) (b.take j) + k +
        matchTotalFuel fuel (a.drop (i + k)) (b.drop (j + k))

/-- Total number of matched elements between `a` and `b` as computed by
`SequenceMatcher.get_matching_blocks`. -/
def matchTotal (a b : List Char) : Nat :=
  matchTotalFuel (a.length + b.length + 1) a b

/-- Python `int(round(num / den))` for nonnegative rationals: nearest
integer, ties to even (the exact value is a half-integer precisely when
the double computed by Python is exact, so exact rational rounding agrees
with the floating-point computation here). -/
def roundHalfEven (num den : Nat) : Nat :=
  let q := num / den
  let r := num % den
  if 2 * r < den then q
  else if den < 2 * r then q + 1
  else if q % 2 = 0 then q else q + 1

/-- `fuzzywuzzy.fuzz.ratio`: 100 times the `SequenceMatcher` ratio
2M/(len a + len b), rounded.  `difflib` defines the ratio of two empty
sequences to be 1.0. -/
def fuzzRatioScore (s1 s2 : String) : Nat :=
  let a := s1.toList
  let b := s2.toList
  let total := a.length + b.length
  if total = 0 then 100
  else roundHalfEven (200 * matchTotal a b) total

/-- `fuzzywuzzy.process.extractOne(tag, choices, scorer=fuzz.ratio)` over a
list of choices: processes the query and every choice with
`full_process`, scores each, and returns the first choice with the
maximal score (Python `max` keeps the earliest maximum), together with
its score.  Returns `none` only for an empty choice list. -/
def extractOneKey (tag : String) (choices : List String) : Option (String × Nat) :=
  let pq := pyFullProcess tag
  choices.foldl
    (fun best k =>
      let s := fuzzRatioScore pq (pyFullProcess k)
      match best with
      | none => some (k, s)
      | some (k0, s0) => if s > s0 then some (k, s) else some (k0, s0))
    none

/-- `_fuzzy_match_genre` (lines 114-125): accept the best fuzzy match
against the taxonomy keys exactly when its score reaches
`fuzzy_threshold`, returning the canonical value mapped to that key. -/
def fuzzyMatchGenre (cfg : GenreExtractionConfig) (tag : String) : Option String :=
  match extractOneKey tag (knownGenres.map (fun p => p.1)) with
  | some (k, s) => if cfg.fuzzy_threshold ≤ s then taxLookup k else none
  | none => none

/-! ## The four-stage pipeline -/

/-- `_clean_tags` (lines 56-72): clean each tag and keep it when its
length lies within the configured bounds (inclusive).  The source also
skips entries that are not strings; the embedding's input is a list of
strings, so that guard is vacuous here. -/
def cleanTags (cfg : GenreExtractionConfig) (tags : List String) : List String :=
  tags.filterMap (fun tag =>
    let t := cleanOne tag
    if cfg.min_tag_length ≤ t.length ∧ t.length ≤ cfg.max_tag_length then
      some t
    else
      none)

/-- `_filter_non_genres` (lines 74-90) generalized over the pattern list
(the source reads the instance field `self.non_genre_patterns`). -/
def filterNonGenresWith (ps : List NonGenrePat) (tags : List String) : List String :=
  tags.filter (fun tag => !tagIsNonGenre ps tag)

/-- `_filter_non_genres` with the extractor's own pattern list. -/
def filterNonGenres (tags : List String) : List String :=
  filterNonGenresWith nonGenrePatterns tags

/-- `_is_genre_by_keywords` (lines 127-135): some genre keyword occurs in
the tag and no non-genre keyword occurs in it.  (The source checks the
non-genre keywords inside the loop over genre keywords, but the check does
not depend on the loop variable, so the loop is equivalent to this
conjunction.) -/
def isGenreByKeywords (tag : String) : Bool :=
  genreKeywords.any (fun kw =>
    strContains (pyLower tag) kw &&
      !nonGenreKeywords.any (fun ng => strContains (pyLower tag) ng))

/-- `_is_genre_by_context` (lines 137-153): if at least two tags of the
filtered set are taxonomy keys, the tag is genre-like when it contains a
musical-indicator substring or a member of some genre family. -/
def isGenreByContext (tag : String) (allTags : List String) : Bool :=
  let knownGenreCount := (allTags.filter (fun t => (taxLookup t).isSome)).length
  if 2 ≤ knownGenreCount then
    (["music", "sound", "beat", "rhythm", "style", "wave"].any
        (fun ind => strContains (pyLower tag) ind))
      || genreFamilies.any (fun fam =>
            fam.2.any (fun g => strContains (pyLower tag) g))
  else
    false

/-- `_extract_genre_from_tag` (lines 92-112): the four resolution
strategies in their source order, short-circuiting on the first success. -/
def extractGenreFromTag (cfg : GenreExtractionConfig) (tag : String)
    (allTags : List String) : Option String :=
  match taxLookup tag with
  | some v => some v
  | none =>
    match fuzzyMatchGenre cfg tag with
    | some v => some v
    | none =>
      if isGenreByKeywords tag then some tag
      else if isGenreByContext tag allTags then some tag
      else none

/-- `_normalize_genre_name` (lines 191-204): apply the synonym table to
the lower-cased genre, defaulting to the genre itself. -/
def normalizeGenreName (genre : String) : String :=
  ((normalizations.find? (fun p => p.1 == pyLower genre)).map (fun p => p.2)).getD genre

/-- The loop of `_deduplicate_and_normalize` (lines 180-189), with the
`seen` set as an accumulator list. -/
def dedupAux (seen : List String) : List String → List String
  | [] => []
  | g :: rest =>
    let n := normalizeGenreName g
    if n ∈ seen then dedupAux seen rest
    else n :: dedupAux (n :: seen) rest

/-- `_deduplicate_and_normalize` (lines 177-189). -/
def dedupAndNormalize (genres : List String) : List String :=
  dedupAux [] genres

/-- `extract_genres` (lines 27-54): the full pipeline.  The loop of step 3
appends `genre` when it is truthy; the resolver never returns an empty
string (every taxonomy value is nonempty and the keyword/context
strategies return the tag only when it contains a nonempty substring), so
truthiness coincides with being `some`. -/
def extractGenres (cfg : GenreExtractionConfig) (lastfmTags : List String) : List String :=
  match lastfmTags with
  | [] => []
  | _ =>
    let cleaned := cleanTags cfg lastfmTags
    let filtered := filterNonGenres cleaned
    let genres := filtered.filterMap (fun tag => extractGenreFromTag cfg tag filtered)
    dedupAndNormalize genres

/-! ## Auxiliary definitions used by the claim statements -/

/-- The per-tag normalizer as the specification words it (claim C4): the
tag lower-cased, every character that is not alphanumeric, whitespace, or
hyphen removed, whitespace runs collapsed, and the result trimmed at the
end.  Stated from the specification text, for comparison with the
source's `_clean_tags`; it is not part of the embedding of the code. -/
def specCleanOne (tag : String) : String :=
  pyStrip (String.mk (collapseWs
    ((pyLower tag).toList.filter
      (fun c => c.isAlphanum || c.isWhitespace || c = '-'))))

/-- The normalizer stage as the specification words it (claim C4): the
per-entry cleaning of `specCleanOne` gated by the inclusive length
bounds. -/
def specCleanStage (cfg : GenreExtractionConfig) (tags : List String) : List String :=
  tags.filterMap (fun tag =>
    let t := specCleanOne tag
    if cfg.min_tag_length ≤ t.length ∧ t.length ≤ cfg.max_tag_length then
      some t
    else
      none)

/-- Reference description of first-seen-order deduplication: keep each
element's first occurrence, dropping the later ones. -/
def firstSeenDedup : List String → List String
  | [] => []
  | x :: xs => x :: firstSeenDedup (xs.filter (fun y => y ≠ x))
  termination_by l => l.length
  decreasing_by
    simp only [List.length_cons]
    exact Nat.lt_succ_of_le (List.length_filter_le _ _)

/-- The example input of the specification's scenario (also the usage
example in `main` of `lastfm.py`). -/
def scenarioTags : List String :=
  ["2020", "folk", "folklore (deluxe version)", "alternative", "folk pop",
   "indie folk", "pop", "chamber pop", "indie", "singer-songwriter"]

/-! ## Helper lemmas -/

theorem filterMap_gate_eq {α β : Type} (f : α → β) (P : β → Prop) [DecidablePred P]
    (l : List α) :
    (l.filterMap (fun a => if P (f a) then some (f a) else none)) =
      (l.map f).filter (fun b => decide (P b)) := by
  induction l with
  | nil => rfl
  | cons a t ih =>
    by_cases h : P (f a) <;> simp [List.filterMap_cons, h, ih]

theorem cleanTags_eq_map_filter (cfg : GenreExtractionConfig) (tags : List String) :
    cleanTags cfg tags =
      (tags.map cleanOne).filter
        (fun c => decide (cfg.min_tag_length ≤ c.length ∧ c.length ≤ cfg.max_tag_length)) := by
  unfold cleanTags
  exact filterMap_gate_eq cleanOne
    (fun c => cfg.min_tag_length ≤ c.length ∧ c.length ≤ cfg.max_tag_length) tags

theorem mem_cleanTags (cfg : GenreExtractionConfig) {tags : List String} {t k : String}
    (hmem : t ∈ tags) (hclean : cleanOne t = k)
    (h1 : cfg.min_tag_length ≤ k.length) (h2 : k.length ≤ cfg.max_tag_length) :
    k ∈ cleanTags cfg tags := by
  unfold cleanTags
  refine List.mem_filterMap.mpr ⟨t, hmem, ?_⟩
  simp only [hclean]
  simp [h1, h2]

theorem mem_filterNonGenres {tags : List String} {k : String}
    (hmem : k ∈ tags) (hng : tagIsNonGenre nonGenrePatterns k = false) :
    k ∈ filterNonGenres tags := by
  unfold filterNonGenres filterNonGenresWith
  exact List.mem_filter.mpr ⟨hmem, by simp [hng]⟩

set_option maxRecDepth 4096 in
theorem taxKeyLenBounds : ∀ p ∈ knownGenres, 2 ≤ p.1.length ∧ p.1.length ≤ 50 := by
  decide

theorem taxLookup_eq_some {x g : String} (h : taxLookup x = some g) :
    ∃ p, p ∈ knownGenres ∧ p.1 = x ∧ p.2 = g := by
  unfold taxLookup at h
  cases hf : List.find? (fun p => p.1 == x) knownGenres with
  | none => rw [hf] at h; cases h
  | some q =>
    rw [hf] at h
    simp only [Option.map_some'] at h
    refine ⟨q, List.mem_of_find?_eq_some hf, ?_, by simpa using h⟩
    have := List.find?_some hf
    simpa using this

theorem dedupAux_mem_of_mem {gs : List String} {g : String} (seen : List String)
    (h : g ∈ gs) :
    normalizeGenreName g ∈ seen ∨ normalizeGenreName g ∈ dedupAux seen gs := by
  induction gs generalizing seen with
  | nil => cases h
  | cons a rest ih =>
    rcases List.mem_cons.mp h with rfl | hrest
    · by_cases hs : normalizeGenreName g ∈ seen
      · exact Or.inl hs
      · right
        simp [dedupAux, hs]
    · by_cases hs : normalizeGenreName a ∈ seen
      · rcases ih seen hrest with h1 | h1
        · exact Or.inl h1
        · right; simpa [dedupAux, hs] using h1
      · rcases ih (normalizeGenreName a :: seen) hrest with h1 | h1
        · rcases List.mem_cons.mp h1 with h2 | h2
          · right; simp [dedupAux, hs, h2]
          · exact Or.inl h2
        · right; simp [dedupAux, hs, h1]

theorem dedupAux_sources (seen : List String) (gs : List String) :
    ∀ x ∈ dedupAux seen gs, ∃ g, g ∈ gs ∧ x = normalizeGenreName g := by
  induction gs generalizing seen with
  | nil => intro x hx; cases hx
  | cons a rest ih =>
    intro x hx
    by_cases hs : normalizeGenreName a ∈ seen
    · simp only [dedupAux, hs, if_pos] at hx
      rcases ih seen x hx with ⟨g, hg, hxg⟩
      exact ⟨g, List.mem_cons_of_mem _ hg, hxg⟩
    · simp only [dedupAux, hs, if_neg, not_false_iff] at hx
      rcases List.mem_cons.mp hx with rfl | hx2
      · exact ⟨a, List.mem_cons_self _ _, rfl⟩
      · rcases ih _ x hx2 with ⟨g, hg, hxg⟩
        exact ⟨g, List.mem_cons_of_mem _ hg, hxg⟩

theorem dedupAux_length_le (seen : List String) (gs : List String) :
    (dedupAux seen gs).length ≤ gs.length := by
  induction gs generalizing seen with
  | nil => simp [dedupAux]
  | cons a rest ih =>
    by_cases hs : normalizeGenreName a ∈ seen
    · simp only [dedupAux, hs, if_pos, List.length_cons]
      exact Nat.le_succ_of_le (ih seen)
    · simp only [dedupAux, hs, if_neg, not_false_iff, List.length_cons]
      exact Nat.succ_le_succ (ih _)

theorem extractGenres_pipeline (cfg : GenreExtractionConfig) (tags : List String) :
    extractGenres cfg tags =
      dedupAndNormalize
        ((filterNonGenres (cleanTags cfg tags)).filterMap
          (fun tag => extractGenreFromTag cfg tag (filterNonGenres (cleanTags cfg tags)))) := by
  cases tags with
  | nil => rfl
  | cons a t => rfl

theorem fuzzy_sources {cfg : GenreExtractionConfig} {t g : String}
    (h : fuzzyMatchGenre cfg t = some g) :
    ∃ p, p ∈ knownGenres ∧ p.2 = g := by
  unfold fuzzyMatchGenre at h
  cases he : extractOneKey t (knownGenres.map (fun p => p.1)) with
  | none => rw [he] at h; cases h
  | some ks =>
    rw [he] at h
    by_cases ht : cfg.fuzzy_threshold ≤ ks.2
    · simp only [ht, if_pos] at h
      rcases taxLookup_eq_some h with ⟨p, hp, _, hv⟩
      exact ⟨p, hp, hv⟩
    · simp [ht] at h

theorem resolver_sources {cfg : GenreExtractionConfig} {t g : String} {ctx : List String}
    (h : extractGenreFromTag cfg t ctx = some g) :
    (∃ p, p ∈ knownGenres ∧ p.2 = g) ∨
      (g = t ∧ (isGenreByKeywords t = true ∨ isGenreByContext t ctx = true)) := by
  unfold extractGenreFromTag at h
  cases htax : taxLookup t with
  | some v =>
    rw [htax] at h
    cases h
    rcases taxLookup_eq_some htax with ⟨p, hp, _, hv⟩
    exact Or.inl ⟨p, hp, hv⟩
  | none =>
    rw [htax] at h
    cases hfz : fuzzyMatchGenre cfg t with
    | some v =>
      rw [hfz] at h
      cases h
      exact Or.inl (fuzzy_sources hfz)
    | none =>
      rw [hfz] at h
      by_cases hk : isGenreByKeywords t = true
      · simp only [hk, if_pos] at h
        cases h
        exact Or.inr ⟨rfl, Or.inl hk⟩
      · by_cases hc : isGenreByContext t ctx = true
        · simp only [hk, hc, if_pos, if_neg, Bool.not_eq_true] at h
          cases h
          exact Or.inr ⟨rfl, Or.inr hc⟩
        · simp [hk, hc] at h

theorem normalize_cases (x : String) :
    normalizeGenreName x = x ∨
      ∃ p, p ∈ normalizations ∧ p.2 = normalizeGenreName x := by
  unfold normalizeGenreName
  cases hf : List.find? (fun p => p.1 == pyLower x) normalizations with
  | none => simp
  | some q =>
    right
    exact ⟨q, List.mem_of_find?_eq_some hf, by simp⟩

theorem dedupAux_eq_firstSeen (gs : List String) :
    ∀ seen : List String,
      dedupAux seen gs =
        firstSeenDedup ((gs.map normalizeGenreName).filter (fun y => y ∉ seen)) := by
  induction gs with
  | nil => intro seen; simp [dedupAux, firstSeenDedup]
  | cons a rest ih =>
    intro seen
    rw [List.map_cons, List.filter_cons]
    by_cases hs : normalizeGenreName a ∈ seen
    · rw [if_neg (by simpa using hs)]
      simp only [dedupAux, hs, if_pos]
      exact ih seen
    · rw [if_pos (by simpa using hs)]
      rw [firstSeenDedup]
      simp only [dedupAux, hs, if_neg, not_false_iff]
      congr 1
      rw [ih (normalizeGenreName a :: seen), List.filter_filter]
      exact congrArg firstSeenDedup
        (List.filter_congr (fun y _ => by
          by_cases h1 : y = normalizeGenreName a <;>
            by_cases h2 : y ∈ seen <;> simp [h1, h2]))

theorem map_filter_comp {α β : Type} (f : α → β) (p : β → Bool) (l : List α) :
    (l.filter (fun a => p (f a))).map f = (l.map f).filter p := by
  induction l with
  | nil => rfl
  | cons a t ih =>
    by_cases h : p (f a) = true <;> simp [List.filter_cons, h, ih]

theorem filtered_erase_eq (cfg : GenreExtractionConfig) (tags : List String) :
    filterNonGenres (cleanTags cfg
        (tags.filter (fun t => !tagIsNonGenre nonGenrePatterns (cleanOne t)))) =
      filterNonGenres (cleanTags cfg tags) := by
  unfold filterNonGenres filterNonGenresWith
  rw [cleanTags_eq_map_filter, cleanTags_eq_map_filter,
    map_filter_comp cleanOne (fun c => !tagIsNonGenre nonGenrePatterns c) tags]
  simp only [List.filter_filter]
  exact List.filter_congr (fun c _ => by
    cases htc : tagIsNonGenre nonGenrePatterns c <;> simp [htc])

theorem cleanTags_config_eq (c1 c2 : GenreExtractionConfig)
    (h2 : c1.min_tag_length = c2.min_tag_length)
    (h3 : c1.max_tag_length = c2.max_tag_length) (tags : List String) :
    cleanTags c1 tags = cleanTags c2 tags := by
  unfold cleanTags
  simp only [h2, h3]

theorem fuzzy_config_eq (c1 c2 : GenreExtractionConfig)
    (h1 : c1.fuzzy_threshold = c2.fuzzy_threshold) (t : String) :
    fuzzyMatchGenre c1 t = fuzzyMatchGenre c2 t := by
  unfold fuzzyMatchGenre
  simp only [h1]

theorem resolver_config_eq (c1 c2 : GenreExtractionConfig)
    (h1 : c1.fuzzy_threshold = c2.fuzzy_threshold) (t : String) (ctx : List String) :
    extractGenreFromTag c1 t ctx = extractGenreFromTag c2 t ctx := by
  unfold extractGenreFromTag
  rw [fuzzy_config_eq c1 c2 h1]

/-! ## Claims -/

/-- C1, counterexample: the input tag "alternative" cleans to the exact
taxonomy key "alternative", which the taxonomy maps to the canonical form
"alternative", yet the output of `extract_genres` is
["alternative rock"] and does not contain "alternative" (the synonym
table applied by the deduplication stage replaces the taxonomy's
canonical value); and the input tag "dancehall" is likewise an exact
taxonomy key, yet the output on it is empty (the non-genre pattern
containing "dance" removes it before resolution).  So the claim as
stated is false. -/
theorem c1_counterexample :
    cleanOne "alternative" = "alternative" ∧
    taxLookup "alternative" = some "alternative" ∧
    extractGenres defaultConfig ["alternative"] = ["alternative rock"] ∧
    "alternative" ∉ extractGenres defaultConfig ["alternative"] ∧
    taxLookup "dancehall" = some "dancehall" ∧
    extractGenres defaultConfig ["dancehall"] = [] :=
  ⟨by decide, by decide, by decide, by decide, by decide, by decide⟩

/-- C1, amended: for every input list and every tag whose cleaned form is
an exact key of the genre taxonomy and matches no non-genre pattern, the
output of `extract_genres` (default configuration) contains the result of
applying the synonym-normalization table to the canonical form that the
taxonomy maps that key to. -/
theorem c1_theorem (tags : List String) (t k v : String)
    (hmem : t ∈ tags) (hclean : cleanOne t = k)
    (htax : taxLookup k = some v)
    (hfilt : tagIsNonGenre nonGenrePatterns k = false) :
    normalizeGenreName v ∈ extractGenres defaultConfig tags := by
  rcases taxLookup_eq_some htax with ⟨p, hp, hpk, _⟩
  have hbounds := taxKeyLenBounds p hp
  rw [hpk] at hbounds
  have hk1 : k ∈ cleanTags defaultConfig tags :=
    mem_cleanTags defaultConfig hmem hclean hbounds.1 hbounds.2
  have hk2 : k ∈ filterNonGenres (cleanTags defaultConfig tags) :=
    mem_filterNonGenres hk1 hfilt
  have hres : extractGenreFromTag defaultConfig k
      (filterNonGenres (cleanTags defaultConfig tags)) = some v := by
    unfold extractGenreFromTag
    rw [htax]
  have hv : v ∈ (filterNonGenres (cleanTags defaultConfig tags)).filterMap
      (fun tag => extractGenreFromTag defaultConfig tag
        (filterNonGenres (cleanTags defaultConfig tags))) :=
    List.mem_filterMap.mpr ⟨k, hk2, hres⟩
  rw [extractGenres_pipeline]
  rcases dedupAux_mem_of_mem [] hv with h | h
  · cases h
  · exact h

/-- C1, witness: the raw tag "HipHop!" cleans to the taxonomy key
"hiphop", survives the non-genre filter, and the canonical form
"hip-hop" (unchanged by the synonym table) is in the output. -/
theorem c1_witness :
    normalizeGenreName "hip-hop" ∈ extractGenres defaultConfig ["HipHop!"] :=
  c1_theorem ["HipHop!"] "HipHop!" "hiphop" "hip-hop"
    (by decide) (by decide) (by decide) (by decide)

/-- C2, counterexample: the cleaned tag "dancehall" matches the
dance-containment non-genre pattern, yet on the input
["dancehall", "bancehall"] the output contains the string "dancehall":
the second tag fuzzy-matches the taxonomy key "dancehall" (score 89) and
resurfaces the canonical value, so the claim as stated is false. -/
theorem c2_counterexample :
    tagIsNonGenre nonGenrePatterns (cleanOne "dancehall") = true ∧
    extractGenres defaultConfig ["dancehall", "bancehall"] = ["dancehall"] :=
  ⟨by decide, by decide⟩

/-- C2, amended: every input tag whose cleaned form matches a non-genre
pattern is removed before resolution and contributes nothing to the
output: erasing all such tags from the input leaves the output of
`extract_genres` unchanged.  (The tag's string can still appear in the
output when a different surviving tag resolves to it, as the
counterexample shows.) -/
theorem c2_theorem (cfg : GenreExtractionConfig) (tags : List String) :
    extractGenres cfg
        (tags.filter (fun t => !tagIsNonGenre nonGenrePatterns (cleanOne t))) =
      extractGenres cfg tags := by
  rw [extractGenres_pipeline, extractGenres_pipeline, filtered_erase_eq]

/-- Shared evaluation of the specification's scenario input. -/
theorem scenarioEval :
    extractGenres defaultConfig scenarioTags =
      ["folk", "alternative rock", "folk pop", "indie folk", "pop",
        "chamber pop", "indie"] := by
  decide

/-- C3, counterexample: on the scenario input the tag
"singer-songwriter" does NOT appear in the output (it fails all four
resolution strategies), contradicting the claim that every one of the
seven surviving tags is resolved and appears. -/
theorem c3_counterexample :
    extractGenres defaultConfig scenarioTags =
      ["folk", "alternative rock", "folk pop", "indie folk", "pop",
        "chamber pop", "indie"] ∧
    "singer-songwriter" ∉ extractGenres defaultConfig scenarioTags := by
  refine ⟨scenarioEval, ?_⟩
  rw [scenarioEval]
  decide

/-- C3, amended: on the scenario input, "2020" and
"folklore (deluxe version)" are dropped by the rule filter (the eight
other tags survive it), "alternative" normalizes to "alternative rock",
and the surviving tags other than "singer-songwriter" appear in the
output in first-seen order, deduplicated; "singer-songwriter" fails all
four resolution strategies and is discarded. -/
theorem c3_theorem :
    filterNonGenres (cleanTags defaultConfig scenarioTags) =
      ["folk", "alternative", "folk pop", "indie folk", "pop", "chamber pop",
        "indie", "singer-songwriter"] ∧
    extractGenreFromTag defaultConfig "singer-songwriter"
        (filterNonGenres (cleanTags defaultConfig scenarioTags)) = none ∧
    extractGenres defaultConfig scenarioTags =
      ["folk", "alternative rock", "folk pop", "indie folk", "pop",
        "chamber pop", "indie"] :=
  ⟨by decide, by decide, scenarioEval⟩

/-- C4, counterexample: on the raw tag "_rock !" the normalizer stage
keeps the underscore (the source removes non-word characters, and word
characters include the underscore) and keeps the trailing space exposed
by removing "!" (the source strips before removal, not after), producing
"_rock " where the claim's description produces "rock". -/
theorem c4_counterexample :
    cleanTags defaultConfig ["_rock !"] = ["_rock "] ∧
    specCleanStage defaultConfig ["_rock !"] = ["rock"] ∧
    ("_rock " : String) ≠ "rock" :=
  ⟨by decide, by decide, by decide⟩

/-- C4, amended: the normalizer stage maps each entry through `cleanOne`
(lower-case; trim; remove every character that is not a word character
(alphanumeric or underscore), whitespace, or hyphen; collapse whitespace
runs — with no final trim) and keeps exactly the results whose length
lies within the inclusive bounds, preserving order and duplicates. -/
theorem c4_theorem (cfg : GenreExtractionConfig) (tags : List String) :
    cleanTags cfg tags =
      (tags.map cleanOne).filter
        (fun c => decide (cfg.min_tag_length ≤ c.length ∧
          c.length ≤ cfg.max_tag_length)) :=
  cleanTags_eq_map_filter cfg tags

/-- C5: for every configuration and tag, when the fuzzy stage's best
taxonomy key scores `s`, `_fuzzy_match_genre` returns the canonical value
mapped to that key exactly when `s` reaches `fuzzy_threshold` (inclusive
boundary), and returns nothing when `s` is below the threshold. -/
theorem c5_theorem (cfg : GenreExtractionConfig) (tag k : String) (s : Nat)
    (h : extractOneKey tag (knownGenres.map (fun p => p.1)) = some (k, s)) :
    (cfg.fuzzy_threshold ≤ s → fuzzyMatchGenre cfg tag = taxLookup k) ∧
    (s < cfg.fuzzy_threshold → fuzzyMatchGenre cfg tag = none) := by
  unfold fuzzyMatchGenre
  rw [h]
  constructor
  · intro hts
    show (if cfg.fuzzy_threshold ≤ s then taxLookup k else none) = taxLookup k
    rw [if_pos hts]
  · intro hts
    show (if cfg.fuzzy_threshold ≤ s then taxLookup k else none) = none
    rw [if_neg (Nat.not_le.mpr hts)]

/-- C5, witness: the tag "rockxy" has best fuzzy match "rock" with score
exactly 80; at the default threshold 80 it is accepted (inclusive
boundary) and at threshold 81 (score one point below the threshold) it is
rejected. -/
theorem c5_witness :
    extractOneKey "rockxy" (knownGenres.map (fun p => p.1)) = some ("rock", 80) ∧
    fuzzyMatchGenre defaultConfig "rockxy" = some "rock" ∧
    fuzzyMatchGenre ⟨81, 2, 50, 3/5, 3/10⟩ "rockxy" = none := by
  have h : extractOneKey "rockxy" (knownGenres.map (fun p => p.1)) =
      some ("rock", 80) := by decide
  refine ⟨h, ?_, ?_⟩
  · have h2 := (c5_theorem defaultConfig "rockxy" "rock" 80 h).1 (by decide)
    rw [h2]
    decide
  · exact (c5_theorem ⟨81, 2, 50, 3/5, 3/10⟩ "rockxy" "rock" 80 h).2 (by decide)

/-- C6: the resolver returns some genre exactly when one of the four
strategies succeeds, in the strict order exact taxonomy lookup, fuzzy
match, keyword match, context match (exact and fuzzy deliver the mapped
canonical value; keyword and context deliver the tag itself), and returns
nothing exactly when all four fail. -/
theorem c6_theorem (cfg : GenreExtractionConfig) (tag : String) (ctx : List String)
    (g : String) :
    (extractGenreFromTag cfg tag ctx = some g ↔
      (taxLookup tag = some g ∨
        (taxLookup tag = none ∧ fuzzyMatchGenre cfg tag = some g) ∨
        (taxLookup tag = none ∧ fuzzyMatchGenre cfg tag = none ∧
          isGenreByKeywords tag = true ∧ tag = g) ∨
        (taxLookup tag = none ∧ fuzzyMatchGenre cfg tag = none ∧
          isGenreByKeywords tag = false ∧ isGenreByContext tag ctx = true ∧
          tag = g))) ∧
    (extractGenreFromTag cfg tag ctx = none ↔
      (taxLookup tag = none ∧ fuzzyMatchGenre cfg tag = none ∧
        isGenreByKeywords tag = false ∧ isGenreByContext tag ctx = false)) := by
  unfold extractGenreFromTag
  cases htax : taxLookup tag with
  | some v => simp [htax]
  | none =>
    cases hfz : fuzzyMatchGenre cfg tag with
    | some v => simp [htax, hfz]
    | none =>
      by_cases hk : isGenreByKeywords tag
      · simp [htax, hfz, hk]
      · by_cases hc : isGenreByContext tag ctx
        · simp [htax, hfz, hk, hc]
        · simp [htax, hfz, hk, hc]

/-- C7: the deduplication stage maps each resolved genre through the
synonym-normalization table and then keeps first occurrences in
first-seen order; and the concrete input ["rock", "ROCK", "rock"] yields
the output ["rock"]. -/
theorem c7_theorem :
    (∀ gs : List String,
      dedupAndNormalize gs = firstSeenDedup (gs.map normalizeGenreName)) ∧
    extractGenres defaultConfig ["rock", "ROCK", "rock"] = ["rock"] := by
  constructor
  · intro gs
    unfold dedupAndNormalize
    rw [dedupAux_eq_firstSeen]
    congr 1
    simp
  · decide

/-- C8: the rule filter drops a normalized tag exactly when at least one
pattern of the fixed non-genre pattern list matches it (prefix-anchored,
case-insensitive, partial-coverage semantics are encoded in
`patMatches`); the kept tags form a sublist of the input in order, and
any permutation of the pattern list yields the same result. -/
theorem c8_theorem (tags : List String) :
    (∀ t : String, t ∈ filterNonGenres tags ↔
      t ∈ tags ∧ ∀ p ∈ nonGenrePatterns, patMatches p t = false) ∧
    (filterNonGenres tags).Sublist tags ∧
    (∀ ps : List NonGenrePat, ps.Perm nonGenrePatterns →
      filterNonGenresWith ps tags = filterNonGenres tags) := by
  refine ⟨?_, List.filter_sublist tags, ?_⟩
  · intro t
    unfold filterNonGenres filterNonGenresWith tagIsNonGenre
    rw [List.mem_filter]
    simp [List.any_eq_true]
  · intro ps hperm
    unfold filterNonGenres filterNonGenresWith
    apply List.filter_congr
    intro t _
    have : tagIsNonGenre ps t = tagIsNonGenre nonGenrePatterns t := by
      unfold tagIsNonGenre
      cases hany : nonGenrePatterns.any (fun p => patMatches p t) with
      | true =>
        rcases List.any_eq_true.mp hany with ⟨p, hp, hmat⟩
        exact List.any_eq_true.mpr ⟨p, hperm.mem_iff.mpr hp, hmat⟩
      | false =>
        rw [List.any_eq_false] at hany ⊢
        exact fun p hp => hany p (hperm.subset hp)
    rw [this]

/-- C8, witness: reversing the pattern list leaves the filter unchanged
on a concrete input, on which it drops "90s" and keeps "rock". -/
theorem c8_witness :
    filterNonGenresWith nonGenrePatterns.reverse ["90s", "rock"] =
      filterNonGenres ["90s", "rock"] ∧
    filterNonGenres ["90s", "rock"] = ["rock"] := by
  have h := c8_theorem ["90s", "rock"]
  exact ⟨h.2.2 nonGenrePatterns.reverse (List.reverse_perm nonGenrePatterns),
    by decide⟩

/-- C9: two configurations agreeing on `fuzzy_threshold`,
`min_tag_length` and `max_tag_length` produce identical outputs of
`extract_genres` whatever their `keyword_threshold` and `context_weight`
fields are: the two fields are carried but never consulted. -/
theorem c9_theorem (cfgA cfgB : GenreExtractionConfig) (tags : List String)
    (h1 : cfgA.fuzzy_threshold = cfgB.fuzzy_threshold)
    (h2 : cfgA.min_tag_length = cfgB.min_tag_length)
    (h3 : cfgA.max_tag_length = cfgB.max_tag_length) :
    extractGenres cfgA tags = extractGenres cfgB tags := by
  rw [extractGenres_pipeline, extractGenres_pipeline,
    cleanTags_config_eq cfgA cfgB h2 h3]
  have hfun : (fun tag => extractGenreFromTag cfgA tag
      (filterNonGenres (cleanTags cfgB tags))) =
      (fun tag => extractGenreFromTag cfgB tag
        (filterNonGenres (cleanTags cfgB tags))) :=
    funext (fun tag => resolver_config_eq cfgA cfgB h1 tag _)
  rw [hfun]

/-- C9, witness: two configurations sharing the three consulted fields
but with different `keyword_threshold` and `context_weight` give the same
output on ["rock"], namely ["rock"]. -/
theorem c9_witness :
    extractGenres ⟨80, 2, 50, 0, 0⟩ ["rock"] =
      extractGenres ⟨80, 2, 50, 1, 7/2⟩ ["rock"] ∧
    extractGenres ⟨80, 2, 50, 0, 0⟩ ["rock"] = ["rock"] :=
  ⟨c9_theorem ⟨80, 2, 50, 0, 0⟩ ⟨80, 2, 50, 1, 7/2⟩ ["rock"] rfl rfl rfl,
    by decide⟩

/-- C10: every string in the output of `extract_genres` (default
configuration) is a canonical value of the taxonomy, a value of the
synonym-normalization table, or a cleaned-and-filtered input tag that the
keyword or context strategy accepted unmodified; and the output is never
longer than the input. -/
theorem c10_theorem (tags : List String) (g : String)
    (hg : g ∈ extractGenres defaultConfig tags) :
    ((∃ p, p ∈ knownGenres ∧ p.2 = g) ∨
      (∃ p, p ∈ normalizations ∧ p.2 = g) ∨
      (g ∈ filterNonGenres (cleanTags defaultConfig tags) ∧
        (isGenreByKeywords g = true ∨
          isGenreByContext g (filterNonGenres (cleanTags defaultConfig tags)) =
            true))) ∧
    (extractGenres defaultConfig tags).length ≤ tags.length := by
  constructor
  · rw [extractGenres_pipeline] at hg
    rcases dedupAux_sources [] _ g hg with ⟨g0, hg0, hgnorm⟩
    rcases List.mem_filterMap.mp hg0 with ⟨t, htmem, hres⟩
    rcases normalize_cases g0 with hid | ⟨p, hp, hpv⟩
    · rw [hid] at hgnorm
      subst hgnorm
      rcases resolver_sources hres with ⟨p, hp, hpv⟩ | ⟨heq, hpred⟩
      · exact Or.inl ⟨p, hp, hpv⟩
      · subst heq
        exact Or.inr (Or.inr ⟨htmem, hpred⟩)
    · right; left
      exact ⟨p, hp, by rw [hpv, ← hgnorm]⟩
  · rw [extractGenres_pipeline]
    refine le_trans (dedupAux_length_le [] _) ?_
    refine le_trans (List.length_filterMap_le _ _) ?_
    refine le_trans (List.length_filter_le _ _) ?_
    rw [cleanTags_eq_map_filter]
    refine le_trans (List.length_filter_le _ _) ?_
    simp

/-- C10, witness: on the input ["hiphop"] the output element "hip-hop"
satisfies the provenance disjunction and the output is not longer than
the input. -/
theorem c10_witness :
    ((∃ p, p ∈ knownGenres ∧ p.2 = "hip-hop") ∨
      (∃ p, p ∈ normalizations ∧ p.2 = "hip-hop") ∨
      ("hip-hop" ∈ filterNonGenres (cleanTags defaultConfig ["hiphop"]) ∧
        (isGenreByKeywords "hip-hop" = true ∨
          isGenreByContext "hip-hop"
            (filterNonGenres (cleanTags defaultConfig ["hiphop"])) = true))) ∧
    (extractGenres defaultConfig ["hiphop"]).length ≤
      (["hiphop"] : List String).length :=
  c10_theorem ["hiphop"] "hip-hop" (by decide)

end MusicMatch
